import Mathlib

/-!
Shallow embedding of the Unified Query Translation Layer of the `intern`
repository (package `pyapp`), covering:

* the shared data model (`pyapp/dao/base.py`): `QueryFilter`, `SortOption`,
  `PaginationOptions`, `StatResult`;
* the relational query compiler (`QueryBuilder` in `pyapp/dao/base.py`);
* the MySQL aggregate result extraction (`MySQLDAO.aggregate`,
  `pyapp/dao/mysql_dao.py` lines 287-303);
* the search-engine (Elasticsearch) query compiler
  (`ElasticsearchDAO._build_filter_clause`, `_build_bool_query`,
  `_build_search_query`, `_is_time_field`, `_convert_time_value`,
  `pyapp/dao/elasticsearch_dao.py`);
* the ES aggregate result extraction (`ElasticsearchDAO.aggregate`);
* the scroll walk (`ElasticsearchDAO.scroll_search`);
* the two `connect()` implementations.

Python dynamic values are modelled by the inductive type `PyVal`.  Python
floats are modelled by integers: every numeric payload appearing in the
verified scenarios (counts, sums, epoch milliseconds, zero defaults) is an
exactly-representable integer, and none of the verified properties depends
on non-integer arithmetic.  Python exceptions are modelled with `Except`.
-/

namespace Intern

/-- A Python runtime value, restricted to the shapes that flow through the
query-translation layer: ints, strings, lists, the `\x7b\x27gte\x27: a, \x27lte\x27: b\x7d`
range dict produced by `_convert_time_value`, and `None`. -/
inductive PyVal where
| vint : Int → PyVal
| vstr : String → PyVal
| vlist : List PyVal → PyVal
| vrange : Int → Int → PyVal
| vnone : PyVal

/-- A Python exception, carrying its message. -/
inductive PyErr where
| valueError : String → PyErr
| typeError : String → PyErr
| nameError : String → PyErr
deriving DecidableEq, Repr

mutual

/-- Python `repr` of a modelled value (used for list elements inside
f-strings). -/
def PyVal.pyRepr : PyVal → String
| .vint n => toString n
| .vstr s => "\x27" ++ s ++ "\x27"
| .vlist xs => "[" ++ String.intercalate ", " (pyReprList xs) ++ "]"
| .vrange a b => "\x7b\x27gte\x27: " ++ toString a ++ ", \x27lte\x27: " ++ toString b ++ "\x7d"
| .vnone => "None"

/-- `repr` of every element of a list, in order. -/
def pyReprList : List PyVal → List String
| [] => []
| v :: vs => PyVal.pyRepr v :: pyReprList vs

end

/-- Python `str` of a modelled value, as used by f-string interpolation
(`f"*\x7bvalue\x7d*"`, `f"%\x7bvalue\x7d%"`): identical to `repr` except on strings. -/
def PyVal.pyStr : PyVal → String
| .vstr s => s
| v => v.pyRepr

/-- `isinstance(value, (int, float))` — the numeric check of the ES `eq`
branch (`elasticsearch_dao.py` line 340). -/
def PyVal.isNumeric : PyVal → Bool
| .vint _ => true
| _ => false

/-- Python truthiness of a modelled value. -/
def PyVal.truthy : PyVal → Bool
| .vint n => n != 0
| .vstr s => s != ""
| .vlist xs => !xs.isEmpty
| .vrange _ _ => true
| .vnone => false

/-- Python `a or b`. -/
def pyOr (a b : PyVal) : PyVal := if a.truthy then a else b

/-- Python `int(v)` on the shapes reachable in the aggregate extraction. -/
def pyInt : PyVal → Except PyErr Int
| .vint n => .ok n
| .vnone => .error (.typeError "int() argument must be a string, a bytes-like object or a real number, not \x27NoneType\x27")
| v => .error (.typeError ("int() argument: " ++ v.pyRepr))

/-- Python `float(v)` on the shapes reachable in the aggregate extraction
(floats modelled as integers, see the file header). -/
def pyFloat : PyVal → Except PyErr Int
| .vint n => .ok n
| .vnone => .error (.typeError "float() argument must be a string or a real number, not \x27NoneType\x27")
| v => .error (.typeError ("float() argument: " ++ v.pyRepr))

/-- `QueryFilter` (`base.py` lines 31-36). -/
structure QueryFilter where
  field : String
  operator : String
  value : PyVal

/-- `SortOption` (`base.py` lines 39-43). -/
structure SortOption where
  field : String
  direction : String := "asc"
deriving DecidableEq, Repr

/-- `PaginationOptions` (`base.py` lines 46-51). -/
structure PaginationOptions where
  offset : Int := 0
  limit : Int := 100
  max_limit : Int := 1000
deriving DecidableEq, Repr

/-- `StatResult` (`base.py` lines 21-28); float fields modelled as integers. -/
structure StatResult where
  count : Int := 0
  sum : Int := 0
  average : Int := 0
  min : Int := 0
  max : Int := 0
deriving DecidableEq, Repr

/-! ### Relational query compiler (`QueryBuilder`, `base.py` lines 192-291)

`QueryBuilder._build_filter_clause` mutates `self.params`; the embedding
threads the parameter list explicitly: a call takes the current `params`
and returns the clause string together with the updated `params`. -/

/-- The `in`/`not_in` expansion loop (`base.py` lines 259-262 / 265-268):
for each list element, append it to `params` and emit the placeholder
`"$" ++ toString (new length of params)`.  Returns the final parameter
list and the placeholder strings in emission order. -/
def inExpand (ps : List PyVal) : List PyVal → List PyVal × List String
| [] => (ps, [])
| v :: vs =>
  let ps' := ps ++ [v]
  let r := inExpand ps' vs
  (r.1, ("$" ++ toString ps'.length) :: r.2)

/-- `QueryBuilder._build_filter_clause` (`base.py` lines 233-271).
Takes the current parameter list, returns the SQL fragment and the updated
parameter list; an operator outside the closed vocabulary raises
`ValueError` (line 271).  For `in`/`not_in` the value must be iterable:
a list iterates its elements, a string iterates its characters, anything
else raises `TypeError`. -/
def buildFilterClause (ps : List PyVal) (f : QueryFilter) : Except PyErr (String × List PyVal) :=
  let ph := "$" ++ toString (ps.length + 1)
  if f.operator == "eq" then .ok (f.field ++ " = " ++ ph, ps ++ [f.value])
  else if f.operator == "ne" then .ok (f.field ++ " != " ++ ph, ps ++ [f.value])
  else if f.operator == "gt" then .ok (f.field ++ " > " ++ ph, ps ++ [f.value])
  else if f.operator == "lt" then .ok (f.field ++ " < " ++ ph, ps ++ [f.value])
  else if f.operator == "gte" then .ok (f.field ++ " >= " ++ ph, ps ++ [f.value])
  else if f.operator == "lte" then .ok (f.field ++ " <= " ++ ph, ps ++ [f.value])
  else if f.operator == "like" then
    .ok (f.field ++ " LIKE " ++ ph, ps ++ [.vstr ("%" ++ f.value.pyStr ++ "%")])
  else if f.operator == "in" then
    match f.value with
    | .vlist vs =>
      let r := inExpand ps vs
      .ok (f.field ++ " IN (" ++ String.intercalate ", " r.2 ++ ")", r.1)
    | .vstr s =>
      let r := inExpand ps (s.data.map fun c => .vstr (String.mk [c]))
      .ok (f.field ++ " IN (" ++ String.intercalate ", " r.2 ++ ")", r.1)
    | v => .error (.typeError (v.pyRepr ++ " object is not iterable"))
  else if f.operator == "not_in" then
    match f.value with
    | .vlist vs =>
      let r := inExpand ps vs
      .ok (f.field ++ " NOT IN (" ++ String.intercalate ", " r.2 ++ ")", r.1)
    | .vstr s =>
      let r := inExpand ps (s.data.map fun c => .vstr (String.mk [c]))
      .ok (f.field ++ " NOT IN (" ++ String.intercalate ", " r.2 ++ ")", r.1)
    | v => .error (.typeError (v.pyRepr ++ " object is not iterable"))
  else .error (.valueError ("Unsupported operator: " ++ f.operator))

/-- The loop body of `QueryBuilder.build_where_clause` (`base.py` lines
226-229): build each filter clause in order, threading `params`; the first
raised exception aborts the whole compilation. -/
def whereLoop (ps : List PyVal) : List QueryFilter → Except PyErr (List String × List PyVal)
| [] => .ok ([], ps)
| f :: fs => do
  let r ← buildFilterClause ps f
  let rest ← whereLoop r.2 fs
  .ok (r.1 :: rest.1, rest.2)

/-- `QueryBuilder.build_where_clause` on a fresh builder (`params = []`),
exactly as `MySQLDAO.search` and `MySQLDAO.aggregate` use it (`base.py`
lines 221-231).  Returns the WHERE clause and the positional parameters. -/
def buildWhereClause (filters : List QueryFilter) : Except PyErr (String × List PyVal) :=
  if filters.isEmpty then .ok ("", [])
  else do
    let r ← whereLoop [] filters
    .ok ("WHERE " ++ String.intercalate " AND " r.1, r.2)

/-- `QueryBuilder.build_pagination_clause` (`base.py` lines 285-290);
`none` models `self.pagination = None`. -/
def buildPaginationClause : Option PaginationOptions → String
| none => ""
| some p => "LIMIT " ++ toString p.limit ++ " OFFSET " ++ toString p.offset

/-- One row of the MySQL aggregate query result (`mysql_dao.py` lines
276-285): the values of the `count`, `sum`, `average`, `min`, `max`
columns; SQL `NULL` is `PyVal.vnone`. -/
structure AggRow where
  count : PyVal
  sum : PyVal
  average : PyVal
  min : PyVal
  max : PyVal

/-- `row[\x27count\x27] or 0` always yields an int here (SQL `COUNT` is never
`NULL`); non-int payloads cannot reach this projection. -/
def PyVal.asInt : PyVal → Int
| .vint n => n
| _ => 0

/-- The result-extraction tail of `MySQLDAO.aggregate` (`mysql_dao.py`
lines 287-300): given the rows returned by the aggregate query, build the
`StatResult`, mapping `NULL` to zero via `or 0`; an empty row list yields
the all-default `StatResult()`. -/
def mysqlAggExtract : List AggRow → Except PyErr StatResult
| [] => .ok {}
| row :: _ => do
  let s ← pyFloat (pyOr row.sum (.vint 0))
  let a ← pyFloat (pyOr row.average (.vint 0))
  let mn ← pyFloat (pyOr row.min (.vint 0))
  let mx ← pyFloat (pyOr row.max (.vint 0))
  .ok { count := (pyOr row.count (.vint 0)).asInt, sum := s, average := a, min := mn, max := mx }

/-! ### Search-engine (Elasticsearch) query compiler
(`elasticsearch_dao.py` lines 291-403) -/

/-- The time-field set of `ElasticsearchDAO._is_time_field`
(`elasticsearch_dao.py` lines 376-384), copied verbatim. -/
def timeFields : List String :=
  ["SJSJ", "XJSJ", "RKSJ", "SAVETIME",
   "KDSJ", "ZYRKSJ", "GXSJ", "CJSJ",
   "JZSJ", "TJSJ", "XXSXSJ", "GGSJXXXRKSJ",
   "JSSJ", "KSSJ", "NWRKSJ", "ZDSJ", "QXSJ", "ZYKRKSJ",
   "CCSJ", "JCSJ", "SCSJ", "LDSJ", "RZSJ",
   "HCSJ", "XXRKSJ", "JYSJ", "CSRQ", "CSSJ", "DDSJ",
   "JPSJ", "YDSJ", "LKSJ", "CFSJ", "YDCFSJ", "DDCJSJ", "FKSJ", "TBSJ"]

/-- `ElasticsearchDAO._is_time_field` (`elasticsearch_dao.py` lines 374-385). -/
def isTimeField (field : String) : Bool := timeFields.contains field

/-- Maximal leading digit run of a character list; returns the run and the
remainder. -/
def takeDigits : List Char → List Char × List Char
| [] => ([], [])
| c :: cs =>
  if c.isDigit then
    let p := takeDigits cs
    (c :: p.1, p.2)
  else ([], c :: cs)

/-- The check `\x27,\x27 in value and re.match(r\x27^\d+,\d+$\x27, value)` together
with `value.split(\x27,\x27)` (`elasticsearch_dao.py` lines 391-392): the regex
matches exactly when the string is a nonempty digit run, a comma, and a
nonempty digit run (which forces the comma to be present and unique, so
`split` yields exactly the two runs). -/
def matchMillisRange (cs : List Char) : Option (List Char × List Char) :=
  let p := takeDigits cs
  if p.1.isEmpty then none
  else
    match p.2 with
    | ',' :: rest =>
      if rest.isEmpty then none
      else if rest.all Char.isDigit then some (p.1, rest)
      else none
    | _ => none

/-- Python `int` of a digit string, as digit-list fold. -/
def digitsToNat (cs : List Char) : Nat :=
  cs.foldl (fun a c => a * 10 + (c.toNat - 48)) 0

/-- `ElasticsearchDAO._convert_time_value` (`elasticsearch_dao.py` lines
387-403): a string matching `^\d+,\d+$` becomes the range dict
`\x7b\x27gte\x27: int(start), \x27lte\x27: int(end)\x7d`; the date-range branch is `pass`, so
every other value is returned unchanged. -/
def convertTimeValue : PyVal → PyVal
| .vstr s =>
  match matchMillisRange s.data with
  | some p => .vrange (digitsToNat p.1) (digitsToNat p.2)
  | none => .vstr s
| v => v

/-- The value-normalization step at the head of
`ElasticsearchDAO._build_filter_clause` (`elasticsearch_dao.py` lines
334-336): time fields are converted, all other fields keep the value. -/
def esNormalizeValue (field : String) (v : PyVal) : PyVal :=
  if isTimeField field then convertTimeValue v else v

/-- One Elasticsearch query clause, as a dict shape
(`elasticsearch_dao.py` lines 338-372):
`term f v` is `\x7b\x27term\x27: \x7bf: v\x7d\x7d`, `wildcard f p` is `\x7b\x27wildcard\x27: \x7bf: p\x7d\x7d`,
`range f k v` is `\x7b\x27range\x27: \x7bf: \x7bk: v\x7d\x7d\x7d`, `terms f v` is `\x7b\x27terms\x27: \x7bf: v\x7d\x7d`,
`mustNotTerm`/`mustNotTerms` are the `bool.must_not` wrappers of `ne` and
`not_in`. -/
inductive EsClause where
| term : String → PyVal → EsClause
| wildcard : String → String → EsClause
| range : String → String → PyVal → EsClause
| terms : String → PyVal → EsClause
| mustNotTerm : String → PyVal → EsClause
| mustNotTerms : String → PyVal → EsClause

/-- `ElasticsearchDAO._build_filter_clause` (`elasticsearch_dao.py` lines
328-372).  The unsupported-operator branch evaluates `LOG_WARNING(...)`;
`LOG_WARNING` is not among the names imported at line 15 of the module
(`LOG_INFO, LOG_ERROR, LOG_DEBUG`), so the call raises `NameError` before
the `return None` is reached. -/
def esBuildFilterClause (f : QueryFilter) : Except PyErr (Option EsClause) :=
  let value := esNormalizeValue f.field f.value
  if f.operator == "eq" then
    if value.isNumeric then .ok (some (.term f.field value))
    else .ok (some (.wildcard f.field ("*" ++ value.pyStr ++ "*")))
  else if f.operator == "ne" then .ok (some (.mustNotTerm f.field value))
  else if f.operator == "gt" then .ok (some (.range f.field "gt" value))
  else if f.operator == "lt" then .ok (some (.range f.field "lt" value))
  else if f.operator == "gte" then .ok (some (.range f.field "gte" value))
  else if f.operator == "lte" then .ok (some (.range f.field "lte" value))
  else if f.operator == "like" then .ok (some (.wildcard f.field ("*" ++ value.pyStr ++ "*")))
  else if f.operator == "in" then .ok (some (.terms f.field value))
  else if f.operator == "not_in" then .ok (some (.mustNotTerms f.field value))
  else .error (.nameError "name \x27LOG_WARNING\x27 is not defined")

/-- The query document produced by `ElasticsearchDAO._build_bool_query`
(`elasticsearch_dao.py` lines 314-326). -/
inductive EsQuery where
| matchAllQ : EsQuery
| boolMust : List EsClause → EsQuery

/-- The clause-collection loop of `_build_bool_query` (lines 319-324):
build each clause, keep it only `if clause:` (a `None` clause is falsy and
is skipped); a raised exception aborts the loop. -/
def esMustClauses : List QueryFilter → Except PyErr (List EsClause)
| [] => .ok []
| f :: fs => do
  let c ← esBuildFilterClause f
  let rest ← esMustClauses fs
  match c with
  | some cl => .ok (cl :: rest)
  | none => .ok rest

/-- `ElasticsearchDAO._build_bool_query` (`elasticsearch_dao.py` lines
314-326). -/
def esBuildBoolQuery (filters : List QueryFilter) : Except PyErr EsQuery :=
  if filters.isEmpty then .ok .matchAllQ
  else do
    let cs ← esMustClauses filters
    .ok (.boolMust cs)

/-- The search body built by `ElasticsearchDAO._build_search_query`
(`elasticsearch_dao.py` lines 291-312); `fromOffset` models the `from`
key, `sort` the ordered `(field, order)` sort specs. -/
structure EsSearchBody where
  query : EsQuery
  size : Int
  fromOffset : Int
  sort : List (String × String)

/-- `ElasticsearchDAO._build_search_query` (`elasticsearch_dao.py` lines
291-312). -/
def esBuildSearchQuery (filters : List QueryFilter) (sorts : List SortOption)
    (pagination : Option PaginationOptions) : Except PyErr EsSearchBody := do
  let q ← esBuildBoolQuery filters
  let body : EsSearchBody :=
    { query := q,
      size := match pagination with | some p => p.limit | none => 100,
      fromOffset := match pagination with | some p => p.offset | none => 0,
      sort := [] }
  if sorts.isEmpty then .ok body
  else .ok { body with sort := sorts.map fun s => (s.field, s.direction.toLower) }

/-- The `aggregations` object of an ES aggregate response
(`elasticsearch_dao.py` lines 277-286): for each named sub-aggregation,
`none` means the key is absent, `some v` means the entry `\x7b\x27value\x27: v\x7d`
is present with payload `v` (`PyVal.vnone` models JSON `null`). -/
structure EsAggs where
  total_count : Option PyVal := none
  total_sum : Option PyVal := none
  total_avg : Option PyVal := none
  total_min : Option PyVal := none
  total_max : Option PyVal := none

/-- `aggregations.get(name, \x7b\x7d).get(\x27value\x27, 0)`: the default `0` applies
only when the key is absent; a present `null` payload is returned as-is. -/
def aggValue (e : Option PyVal) : PyVal := e.getD (.vint 0)

/-- The result-extraction tail of `ElasticsearchDAO.aggregate`
(`elasticsearch_dao.py` lines 277-286): `int(...)` on the count and
`float(...)` on the four other metrics. -/
def esAggExtract (a : EsAggs) : Except PyErr StatResult := do
  let c ← pyInt (aggValue a.total_count)
  let s ← pyFloat (aggValue a.total_sum)
  let av ← pyFloat (aggValue a.total_avg)
  let mn ← pyFloat (aggValue a.total_min)
  let mx ← pyFloat (aggValue a.total_max)
  .ok { count := c, sum := s, average := av, min := mn, max := mx }

/-! ### Scroll walk (`ElasticsearchDAO.scroll_search`,
`elasticsearch_dao.py` lines 458-505)

The backend is modelled as the script of successive fetch outcomes: the
`k`-th list entry is the outcome of the `k`-th network fetch (entry 0 is
the initial `search`, later entries are `scroll` calls); `some n` returns
a page of `n` hits, `none` raises.  A fetch beyond the script returns an
empty page.  The walk's observable outcome records the number of fetches
issued, the number of hits accumulated, whether `clear_scroll` ran, and
whether the walk ended by a raised exception. -/

structure ScrollOutcome where
  fetches : Nat
  docs : Nat
  released : Bool
  errored : Bool
deriving DecidableEq, Repr

/-- The `while hits:` loop of `scroll_search` (lines 485-496) followed by
the `clear_scroll` call (lines 499-500): arguments are the remaining fetch
script, the hit count of the page just fetched, and the fetch/doc
accumulators.  On a raised fetch the `except` branch re-raises without
clearing the scroll (lines 503-505). -/
def scrollLoop : List (Option Nat) → Nat → Nat → Nat → ScrollOutcome
| _, 0, fetches, docs => ⟨fetches, docs, true, false⟩
| [], _ + 1, fetches, docs => ⟨fetches + 1, docs, true, false⟩
| none :: _, _ + 1, fetches, docs => ⟨fetches + 1, docs, false, true⟩
| some n :: rest, _ + 1, fetches, docs => scrollLoop rest n (fetches + 1) (docs + n)

/-- `ElasticsearchDAO.scroll_search` (lines 458-505): the initial `search`
(lines 473-482) followed by the scroll loop. -/
def scrollSearch : List (Option Nat) → ScrollOutcome
| [] => ⟨1, 0, true, false⟩
| none :: _ => ⟨1, 0, false, true⟩
| some n :: rest => scrollLoop rest n 1 n

/-! ### `connect()` (`mysql_dao.py` lines 22-40, `elasticsearch_dao.py`
lines 25-51)

Each underlying backend call either succeeds or raises; the environment
records which.  The embedding returns the value `connect()` returns to
its caller together with the adapter's handle state after the call
(`true` when `self.pool` / `self.client` holds an object, `false` when it
is still `None`); the whole body is wrapped in `try/except Exception`,
so no exception escapes and the return type is a plain pair. -/

/-- Outcomes of the two underlying steps of `ElasticsearchDAO.connect`:
the `AsyncElasticsearch(...)` construction (line 37) and the
`client.info()` health check (line 46). -/
structure EsConnectEnv where
  ctorFails : Bool
  infoFails : Bool
deriving DecidableEq, Repr

/-- `ElasticsearchDAO.connect` (`elasticsearch_dao.py` lines 25-51):
returns `(return value, client attribute is set)`.  `self.client` is
assigned before `info()` runs, so a failing health check leaves the
constructed client behind. -/
def esConnect (env : EsConnectEnv) : Bool × Bool :=
  if env.ctorFails then (false, false)
  else if env.infoFails then (false, true)
  else (true, true)

/-- Outcome of the single underlying step of `MySQLDAO.connect`: the
`aiomysql.create_pool(...)` call (line 25). -/
structure MysqlConnectEnv where
  createPoolFails : Bool
deriving DecidableEq, Repr

/-- `MySQLDAO.connect` (`mysql_dao.py` lines 22-40): returns
`(return value, pool attribute is set)`; the assignment to `self.pool`
only happens when `create_pool` succeeds. -/
def mysqlConnect (env : MysqlConnectEnv) : Bool × Bool :=
  if env.createPoolFails then (false, false) else (true, true)

/-! ### Supporting lemmas -/

/-- The placeholder strings the `in`/`not_in` expansion emits when the
parameter list already holds `base` entries: `$base+1`, …, `$base+n`. -/
def placeholderList (base n : Nat) : List String :=
  (List.range n).map fun i => "$" ++ toString (base + i + 1)

theorem placeholderList_succ (base n : Nat) :
    placeholderList base (n + 1) =
      ("$" ++ toString (base + 1)) :: placeholderList (base + 1) n := by
  unfold placeholderList
  rw [List.range_succ_eq_map, List.map_cons, List.map_map]
  refine congrArg₂ _ (by simp) (List.map_congr_left fun i _ => ?_)
  simp only [Function.comp_apply]
  refine congrArg _ (congrArg _ ?_)
  omega

theorem inExpand_eq : ∀ (vs ps : List PyVal),
    inExpand ps vs = (ps ++ vs, placeholderList ps.length vs.length)
  | [], ps => by simp [inExpand, placeholderList]
  | v :: vs, ps => by
    simp only [inExpand, inExpand_eq vs (ps ++ [v]), List.length_cons]
    rw [placeholderList_succ]
    simp

theorem takeDigits_digits_comma : ∀ (ds : List Char), (∀ c ∈ ds, c.isDigit) →
    ∀ t : List Char, takeDigits (ds ++ ',' :: t) = (ds, ',' :: t)
  | [], _, t => rfl
  | d :: ds, h, t => by
    have hd : d.isDigit := h d (by simp)
    have ih := takeDigits_digits_comma ds (fun c hc => h c (by simp [hc])) t
    simp [takeDigits, hd, ih]

theorem matchMillisRange_append (x y : List Char)
    (hx : x ≠ []) (hdx : ∀ c ∈ x, c.isDigit)
    (hy : y ≠ []) (hdy : ∀ c ∈ y, c.isDigit) :
    matchMillisRange (x ++ ',' :: y) = some (x, y) := by
  have hx' : x.isEmpty = false := by cases x with | nil => exact absurd rfl hx | cons a l => rfl
  have hy' : y.isEmpty = false := by cases y with | nil => exact absurd rfl hy | cons a l => rfl
  have hdy' : y.all Char.isDigit = true := List.all_eq_true.mpr hdy
  simp [matchMillisRange, takeDigits_digits_comma x hdx y, hx', hy', hdy']

theorem scrollLoop_released : ∀ (rest : List (Option Nat)) (n fetches docs : Nat),
    (scrollLoop rest n fetches docs).released = !(scrollLoop rest n fetches docs).errored
  | _, 0, _, _ => by simp [scrollLoop]
  | [], _ + 1, _, _ => by simp [scrollLoop]
  | none :: _, _ + 1, _, _ => by simp [scrollLoop]
  | some m :: rest, k + 1, fetches, docs => by
    simpa [scrollLoop] using scrollLoop_released rest m (fetches + 1) (docs + m)

/-! ### Claim theorems -/

/-- C1 (amended): for every `eq` filter, the search-engine compiler first
applies time-field normalization to the value (identity for non-time
fields); if the resulting value is numeric it emits a `term` clause for
it, otherwise a `wildcard` clause whose pattern is the string form of the
resulting value wrapped in `*...*`. -/
theorem eq_filter_clause_shape (f : QueryFilter) (h : f.operator = "eq") :
    esBuildFilterClause f =
      .ok (some (if (esNormalizeValue f.field f.value).isNumeric
        then EsClause.term f.field (esNormalizeValue f.field f.value)
        else EsClause.wildcard f.field ("*" ++ (esNormalizeValue f.field f.value).pyStr ++ "*"))) := by
  simp only [esBuildFilterClause, h]
  cases hn : (esNormalizeValue f.field f.value).isNumeric <;> simp [hn]

/-- C1 witness: the theorem applied to the numeric filter
`("age", "eq", 30)`, whose emitted clause is `\x7bterm: \x7bage: 30\x7d\x7d`. -/
theorem eq_filter_clause_shape_witness :
    (QueryFilter.mk "age" "eq" (.vint 30)).operator = "eq" ∧
    esBuildFilterClause ⟨"age", "eq", .vint 30⟩ = .ok (some (.term "age" (.vint 30))) :=
  ⟨rfl, (eq_filter_clause_shape ⟨"age", "eq", .vint 30⟩ rfl).trans rfl⟩

/-- C1 counterexample: the `eq` filter `("SJSJ", "eq", "1,2")` has a
non-numeric value, yet the emitted wildcard pattern is the converted range
dict wrapped in `*...*`, not the filter value `"1,2"` wrapped in `*...*`. -/
theorem eq_filter_time_field_counterexample :
    esBuildFilterClause ⟨"SJSJ", "eq", .vstr "1,2"⟩ =
      .ok (some (.wildcard "SJSJ" "*\x7b\x27gte\x27: 1, \x27lte\x27: 2\x7d*")) ∧
    ("*\x7b\x27gte\x27: 1, \x27lte\x27: 2\x7d*" : String) ≠ "*1,2*" :=
  ⟨rfl, by decide⟩

/-- C2 (amended): the relational path applies no time-field normalization;
the filter `("SJSJ", "eq", "1700000000000,1700003600000")` compiles to
`WHERE SJSJ = $1` with the raw string as its single positional parameter.
Only the search-engine compiler rewrites the value, to
`\x7bgte: 1700000000000, lte: 1700003600000\x7d`. -/
theorem relational_time_filter_amended :
    buildWhereClause [⟨"SJSJ", "eq", .vstr "1700000000000,1700003600000"⟩] =
      .ok ("WHERE SJSJ = $1", [.vstr "1700000000000,1700003600000"]) ∧
    convertTimeValue (.vstr "1700000000000,1700003600000") =
      .vrange 1700000000000 1700003600000 ∧
    esNormalizeValue "SJSJ" (.vstr "1700000000000,1700003600000") =
      .vrange 1700000000000 1700003600000 :=
  ⟨rfl, rfl, rfl⟩

/-- C2 counterexample: for the filter list
`[("SJSJ", "eq", "1700000000000,1700003600000")]` the relational compiler
emits the equality clause `WHERE SJSJ = $1` whose parameter list is the
single raw string — not a `BETWEEN`-equivalent clause with the two
millisecond values as parameters. -/
theorem relational_time_filter_counterexample :
    buildWhereClause [⟨"SJSJ", "eq", .vstr "1700000000000,1700003600000"⟩] =
      .ok ("WHERE SJSJ = $1", [.vstr "1700000000000,1700003600000"]) ∧
    ("WHERE SJSJ = $1" : String) ≠ "WHERE SJSJ BETWEEN $1 AND $2" ∧
    [PyVal.vstr "1700000000000,1700003600000"] ≠
      [PyVal.vint 1700000000000, PyVal.vint 1700003600000] :=
  ⟨rfl, by decide, by simp⟩

/-- C3 (amended): for every pagination, the relational compiler produces
exactly `LIMIT limit OFFSET offset` and the search-engine compiler
produces exactly `size = limit`, `from = offset`; no `max_limit` check
exists, so a limit above `max_limit` is compiled like any other. -/
theorem pagination_clause_shape (p : PaginationOptions) :
    buildPaginationClause (some p) =
      "LIMIT " ++ toString p.limit ++ " OFFSET " ++ toString p.offset ∧
    esBuildSearchQuery [] [] (some p) = .ok ⟨.matchAllQ, p.limit, p.offset, []⟩ :=
  ⟨rfl, rfl⟩

/-- C3 counterexample: the pagination `(offset 0, limit 5000)` exceeds the
default `max_limit = 1000` yet both compilers compile it normally instead
of rejecting it. -/
theorem pagination_over_limit_counterexample :
    buildPaginationClause (some ⟨0, 5000, 1000⟩) = "LIMIT 5000 OFFSET 0" ∧
    esBuildSearchQuery [] [] (some ⟨0, 5000, 1000⟩) = .ok ⟨.matchAllQ, 5000, 0, []⟩ ∧
    (5000 : Int) > 1000 :=
  ⟨rfl, rfl, by decide⟩

/-- C4: on the unsupported operator `between`, the relational compiler
raises `ValueError("Unsupported operator: between")` and aborts the whole
WHERE-clause compilation (no partial compilation), while the search-engine
compiler's unsupported-operator branch raises
`NameError: name \x27LOG_WARNING\x27 is not defined` — `LOG_WARNING` is not
imported in `elasticsearch_dao.py` — instead of an unsupported-operator
error (its intended `return None` path would silently drop the clause). -/
theorem unsupported_operator_behavior :
    buildFilterClause [] ⟨"age", "between", .vint 5⟩ =
      .error (.valueError "Unsupported operator: between") ∧
    buildWhereClause [⟨"age", "between", .vint 5⟩, ⟨"name", "eq", .vstr "x"⟩] =
      .error (.valueError "Unsupported operator: between") ∧
    esBuildFilterClause ⟨"age", "between", .vint 5⟩ =
      .error (.nameError "name \x27LOG_WARNING\x27 is not defined") ∧
    esBuildBoolQuery [⟨"age", "between", .vint 5⟩, ⟨"name", "eq", .vstr "x"⟩] =
      .error (.nameError "name \x27LOG_WARNING\x27 is not defined") :=
  ⟨rfl, rfl, rfl, rfl⟩

/-- C5: the MySQL aggregate extraction maps `NULL` aggregate columns to an
all-zero `StatResult`, and the ES extraction maps absent aggregation
entries to zeros — but an ES response whose `avg`/`min`/`max` values are
explicitly `null` (what the search engine actually returns for an empty
result set) makes `float(None)` raise `TypeError` instead of producing
zeros. -/
theorem empty_aggregate_behavior :
    esAggExtract ⟨some (.vint 0), some (.vint 0), some .vnone, some .vnone, some .vnone⟩ =
      .error (.typeError "float() argument must be a string or a real number, not \x27NoneType\x27") ∧
    esAggExtract ⟨none, none, none, none, none⟩ = .ok ⟨0, 0, 0, 0, 0⟩ ∧
    mysqlAggExtract [⟨.vint 0, .vnone, .vnone, .vnone, .vnone⟩] = .ok ⟨0, 0, 0, 0, 0⟩ ∧
    mysqlAggExtract [] = .ok ⟨0, 0, 0, 0, 0⟩ :=
  ⟨rfl, rfl, rfl, rfl⟩

/-- C6 (amended): the scroll walk fetches pages until a fetch returns no
hits — for a 5-document index served in pages of 2 that is 4 fetches
(2, 2, 1, 0), all 5 hits accumulated — and the continuation token is
released only on the success path: a fetch that raises propagates the
error without releasing it. -/
theorem scroll_walk_amended :
    (∀ backend, (scrollSearch backend).released = !(scrollSearch backend).errored) ∧
    scrollSearch [some 2, some 2, some 1, some 0] = ⟨4, 5, true, false⟩ ∧
    scrollSearch [some 2, none] = ⟨2, 2, false, true⟩ := by
  refine ⟨fun backend => ?_, rfl, rfl⟩
  match backend with
  | [] => rfl
  | none :: _ => rfl
  | some n :: rest => exact scrollLoop_released rest n 1 n

/-- C6 counterexample: over 5 documents in pages of 2 the walk issues 4
fetches (the final empty fetch included), not 3. -/
theorem scroll_walk_counterexample :
    scrollSearch [some 2, some 2, some 1, some 0] = ⟨4, 5, true, false⟩ ∧
    (4 : Nat) ≠ 3 :=
  ⟨rfl, by decide⟩

/-- C7: for every field in the time-field set, a string value of shape
`digits ++ "," ++ digits` is converted to the range
`\x7bgte: millis1, lte: millis2\x7d` with integer bounds, and for every field
outside the set the value passes through unchanged. -/
theorem time_field_conversion_spec :
    (∀ (field x y : String), isTimeField field = true →
      x.data ≠ [] → (∀ c ∈ x.data, c.isDigit) →
      y.data ≠ [] → (∀ c ∈ y.data, c.isDigit) →
      esNormalizeValue field (.vstr (x ++ "," ++ y)) =
        .vrange (digitsToNat x.data) (digitsToNat y.data)) ∧
    (∀ (field : String) (v : PyVal), isTimeField field = false →
      esNormalizeValue field v = v) := by
  constructor
  · intro field x y hf hx hdx hy hdy
    have hdata : (x ++ "," ++ y).data = x.data ++ ',' :: y.data := by
      rw [String.data_append, String.data_append]
      simp
    simp only [esNormalizeValue, hf, if_true, convertTimeValue, hdata,
      matchMillisRange_append x.data y.data hx hdx hy hdy]
  · intro field v hf
    simp [esNormalizeValue, hf]

/-- C7 witness: the theorem applied to the time field `SJSJ` with the
value `"1700000000000,1700003600000"` and to the non-time field
`id_card`. -/
theorem time_field_conversion_spec_witness :
    isTimeField "SJSJ" = true ∧
    esNormalizeValue "SJSJ" (.vstr ("1700000000000" ++ "," ++ "1700003600000")) =
      .vrange 1700000000000 1700003600000 ∧
    isTimeField "id_card" = false ∧
    esNormalizeValue "id_card" (.vstr "1,2") = .vstr "1,2" :=
  ⟨rfl,
   (time_field_conversion_spec.1 "SJSJ" "1700000000000" "1700003600000" rfl
     (by decide) (by decide) (by decide) (by decide)).trans rfl,
   rfl,
   time_field_conversion_spec.2 "id_card" (.vstr "1,2") rfl⟩

/-- C8: for every `in`/`not_in` filter over a value list of size `n`, the
relational compiler emits exactly `n` positional placeholders inside the
parenthesis and appends exactly the `n` list values to the parameter
list, in list order. -/
theorem in_filter_placeholder_param_count (field : String) (ps vs : List PyVal) :
    buildFilterClause ps ⟨field, "in", .vlist vs⟩ =
      .ok (field ++ " IN (" ++
        String.intercalate ", " (placeholderList ps.length vs.length) ++ ")", ps ++ vs) ∧
    buildFilterClause ps ⟨field, "not_in", .vlist vs⟩ =
      .ok (field ++ " NOT IN (" ++
        String.intercalate ", " (placeholderList ps.length vs.length) ++ ")", ps ++ vs) ∧
    (placeholderList ps.length vs.length).length = vs.length := by
  refine ⟨?_, ?_, by simp [placeholderList]⟩ <;>
    simp [buildFilterClause, inExpand_eq]

/-- C9 (amended): for the single filter
`("id_card", "eq", "110101199001011234")` the relational compiler
produces `WHERE id_card = $1` — numbered `$N` positional placeholders —
with the value as its single parameter, and the search-engine compiler,
whose numeric check is on the Python-native type, treats the digit string
as non-numeric and produces the wildcard clause
`\x7bwildcard: \x7bid_card: "*110101199001011234*"\x7d\x7d`. -/
theorem id_card_scenario_amended :
    buildWhereClause [⟨"id_card", "eq", .vstr "110101199001011234"⟩] =
      .ok ("WHERE id_card = $1", [.vstr "110101199001011234"]) ∧
    esBuildFilterClause ⟨"id_card", "eq", .vstr "110101199001011234"⟩ =
      .ok (some (.wildcard "id_card" "*110101199001011234*")) :=
  ⟨rfl, rfl⟩

/-- C9 counterexample: the relational clause is `WHERE id_card = $1`, not
`WHERE id_card = ?`, and the search-engine clause is a wildcard clause,
not the claimed term clause. -/
theorem id_card_scenario_counterexample :
    buildWhereClause [⟨"id_card", "eq", .vstr "110101199001011234"⟩] =
      .ok ("WHERE id_card = $1", [.vstr "110101199001011234"]) ∧
    ("WHERE id_card = $1" : String) ≠ "WHERE id_card = ?" ∧
    esBuildFilterClause ⟨"id_card", "eq", .vstr "110101199001011234"⟩ =
      .ok (some (.wildcard "id_card" "*110101199001011234*")) ∧
    EsClause.wildcard "id_card" "*110101199001011234*" ≠
      EsClause.term "id_card" (.vstr "110101199001011234") :=
  ⟨rfl, by decide, rfl, fun h => EsClause.noConfusion h⟩

/-- C10 (amended): both `connect()` implementations swallow every
underlying failure and return a bare boolean — `true` exactly when every
underlying step succeeded.  On failure the MySQL adapter's pool attribute
is always left unset, while the ES adapter's client attribute remains set
whenever the construction succeeded and only the `info()` health check
failed. -/
theorem connect_boolean_contract (e₁ : MysqlConnectEnv) (e₂ : EsConnectEnv) :
    (mysqlConnect e₁).1 = !e₁.createPoolFails ∧
    (mysqlConnect e₁).2 = !e₁.createPoolFails ∧
    (esConnect e₂).1 = (!e₂.ctorFails && !e₂.infoFails) ∧
    (esConnect e₂).2 = !e₂.ctorFails := by
  obtain ⟨b⟩ := e₁
  obtain ⟨c, i⟩ := e₂
  cases b <;> cases c <;> cases i <;> simp [mysqlConnect, esConnect]

/-- C10 counterexample: when the ES client construction succeeds and the
`info()` health check fails, `connect()` returns `false` but the adapter
is not left unconnected — `self.client` still holds the constructed
client. -/
theorem connect_failure_state_counterexample :
    esConnect ⟨false, true⟩ = (false, true) ∧ (true : Bool) ≠ false :=
  ⟨rfl, by decide⟩

end Intern
